import Mathlib

/-!
Shallow embedding of the inventory-ledger core of `src/src/main.rs`
(egui inventory manager).  The ledger state consists of the item catalog,
the append-only transaction log and the id counter (fields `items`,
`transactions`, `next_item_id` of `MyApp`).  The four ledger operations are
extracted from the button-click handlers:

* `addItem`            — the `Add Item` click handler in `add_item_tab_ui`
                         (main.rs lines 254-276);
* `recordMovement`     — the `Receive`/`Ship` click handler in
                         `movement_tab_ui` (main.rs lines 323-349);
* `listItems`          — the filter-and-sort view in `inventory_tab_ui`
                         (main.rs lines 188-203);
* `recentTransactions` — the reversed, truncated log view in
                         `movement_tab_ui` (main.rs lines 353-370).

Modelling conventions: Rust `u32` ids are modelled as `Nat` and `i32`
quantities as `Int`; `i32::from_str` is modelled exactly (optional sign,
ASCII digits only, value must fit in the `i32` range, anything else is a
parse failure, and `unwrap_or(0)` maps a failure to 0).  Overflow of the
running `quantity_on_hand` sum — a panic in checked Rust builds — is
outside the model.  Whitespace trimming and lowercasing are modelled with
the ASCII `rustTrim` / `rustToLower` below; the claims only involve
ASCII data.  The `form.status` strings are presentation state, modelled as
the result component of each operation.
-/

namespace InventoryApp

/-- Mirrors Rust `struct InventoryItem` (main.rs lines 13-21). -/
structure InventoryItem where
  id : Nat
  name : String
  sku : String
  unit : String
  location : String
  quantity_on_hand : Int
deriving DecidableEq, Repr

/-- Mirrors Rust `enum TransactionType` (main.rs lines 23-27); the spec
calls `Warehousing` a Receipt and `Shipping` a Shipment. -/
inductive TransactionType where
  | Warehousing
  | Shipping
deriving DecidableEq, Repr

/-- Mirrors Rust `struct Transaction` (main.rs lines 29-36):
`date` is the (year, month, day) triple. -/
structure Transaction where
  date : Int × Nat × Nat
  item_id : Nat
  quantity : Int
  note : String
  txn_type : TransactionType
deriving DecidableEq, Repr

/-- The ledger state: the `items`, `transactions` and `next_item_id`
fields of Rust `struct MyApp` (main.rs lines 78-96). -/
structure Ledger where
  items : List InventoryItem
  transactions : List Transaction
  next_item_id : Nat
deriving DecidableEq, Repr

/-- `MyApp::default` (main.rs lines 98-115): empty catalog, empty log,
id counter starting at 1. -/
def initialLedger : Ledger := ⟨[], [], 1⟩

/-- Model of Rust `str::trim`: strip leading and trailing whitespace
(the claims only involve ASCII data, so `Char.isWhitespace` suffices). -/
def rustTrim (s : String) : String :=
  ⟨((s.data.dropWhile Char.isWhitespace).reverse.dropWhile Char.isWhitespace).reverse⟩

/-- Model of Rust `str::to_lowercase` (ASCII case folding suffices for
the claims). -/
def rustToLower (s : String) : String :=
  ⟨s.data.map Char.toLower⟩

/-- Accumulates the numeric value of a string of ASCII digits,
as `from_str` does digit by digit. -/
def digitsToNat (cs : List Char) : Nat :=
  cs.foldl (fun a c => a * 10 + (c.toNat - 48)) 0

/-- Model of Rust `str::parse::<i32>` (`i32::from_str`): an optional
leading `+`/`-` sign followed by one or more ASCII digits, the value
required to fit in the `i32` range; everything else is a parse error
(`none`). -/
def parseI32 (s : String) : Option Int :=
  match s.data with
  | [] => none
  | c :: cs =>
    let digits : List Char := if c = '-' ∨ c = '+' then cs else c :: cs
    if digits.isEmpty then none
    else if digits.all (fun d => d.isDigit) then
      let v : Int := if c = '-' then -(digitsToNat digits : Int) else (digitsToNat digits : Int)
      if -(2 ^ 31) ≤ v ∧ v ≤ 2 ^ 31 - 1 then some v else none
    else none

/-- Rust `form.quantity_text.trim().parse().unwrap_or(0)`
(main.rs lines 255 and 324). -/
def parseOrZero (s : String) : Int :=
  (parseI32 (rustTrim s)).getD 0

/-- The single failure mode of `addItem`, reported in the source as the
status string "Name and SKU are required" (main.rs line 257). -/
inductive ValidationError where
  | MissingRequiredField
deriving DecidableEq, Repr

instance {ε α : Type} [DecidableEq ε] [DecidableEq α] : DecidableEq (Except ε α) :=
  fun a b =>
    match a, b with
    | Except.ok x, Except.ok y =>
      if h : x = y then Decidable.isTrue (by simp [h])
      else Decidable.isFalse (by simp [h])
    | Except.error x, Except.error y =>
      if h : x = y then Decidable.isTrue (by simp [h])
      else Decidable.isFalse (by simp [h])
    | Except.ok _, Except.error _ => Decidable.isFalse (by simp)
    | Except.error _, Except.ok _ => Decidable.isFalse (by simp)

/-- AddItem: the `Add Item` click handler of `add_item_tab_ui`
(main.rs lines 254-276).  Parses the quantity text leniently, rejects a
blank (after trimming) name or sku without touching the state, and
otherwise appends the new item built from the trimmed fields, returning
the allocated id and bumping the counter. -/
def addItem (s : Ledger) (name sku unit location quantity_text : String) :
    Ledger × Except ValidationError Nat :=
  if (rustTrim name).isEmpty || (rustTrim sku).isEmpty then
    (s, Except.error ValidationError.MissingRequiredField)
  else
    (⟨s.items ++
        [⟨s.next_item_id, rustTrim name, rustTrim sku, rustTrim unit, rustTrim location,
          parseOrZero quantity_text⟩],
      s.transactions, s.next_item_id + 1⟩,
      Except.ok s.next_item_id)

/-- Rust `let sign = if is_warehousing { 1 } else { -1 }`
(main.rs line 325); the `Warehousing` tab calls the handler with
`is_warehousing = true`, the `Shipping` tab with `false`. -/
def signOf : TransactionType → Int
  | TransactionType.Warehousing => 1
  | TransactionType.Shipping => -1

/-- Result of a movement click: `recorded` and `insufficientStock` are the
two status strings of main.rs lines 330 and 344; `noItem` is the silent
no-op of `items.get_mut` returning `None` (main.rs line 327). -/
inductive MovementResult where
  | recorded
  | insufficientStock
  | noItem
deriving DecidableEq, Repr

/-- RecordMovement: the `Receive`/`Ship` click handler of
`movement_tab_ui` (main.rs lines 323-349).  Parses the quantity text
leniently, applies the signed adjustment to the selected item, rejects the
movement (leaving the state untouched) when the new quantity would be
negative, and otherwise commits the updated item together with the
appended transaction. -/
def recordMovement (s : Ledger) (item_index : Nat) (quantity_text note : String)
    (kind : TransactionType) (date : Int × Nat × Nat) : Ledger × MovementResult :=
  match s.items[item_index]? with
  | none => (s, MovementResult.noItem)
  | some item =>
    if item.quantity_on_hand + signOf kind * parseOrZero quantity_text < 0 then
      (s, MovementResult.insufficientStock)
    else
      (⟨s.items.set item_index
          ⟨item.id, item.name, item.sku, item.unit, item.location,
            item.quantity_on_hand + signOf kind * parseOrZero quantity_text⟩,
        s.transactions ++
          [⟨date, item.id, parseOrZero quantity_text, note, kind⟩],
        s.next_item_id⟩,
        MovementResult.recorded)

/-- Substring test on character lists: the needle occurs as a contiguous
run somewhere in the haystack (Rust `str::contains`). -/
def containsSub (needle : List Char) : List Char → Bool
  | [] => needle.isEmpty
  | c :: t => needle.isPrefixOf (c :: t) || containsSub needle t

/-- Rust `str::contains(&str)` as used on the lowercased fields. -/
def strContains (hay needle : String) : Bool :=
  containsSub needle.data hay.data

/-- The filter closure of `inventory_tab_ui` (main.rs lines 192-200):
an empty (already lowercased) filter accepts everything, otherwise the
lowercased name, sku or location must contain it. -/
def matchesFilter (filter_lc : String) (item : InventoryItem) : Bool :=
  if filter_lc.isEmpty then true
  else
    strContains (rustToLower item.name) filter_lc
      || strContains (rustToLower item.sku) filter_lc
      || strContains (rustToLower item.location) filter_lc

/-- The by-name comparison of `rows.sort_by(|a, b| a.name.cmp(&b.name))`
(main.rs line 203). -/
def itemNameLe (a b : InventoryItem) : Prop :=
  a.name ≤ b.name

instance : DecidableRel itemNameLe :=
  fun a b => inferInstanceAs (Decidable (a.name ≤ b.name))

instance : IsTotal InventoryItem itemNameLe :=
  ⟨fun a b => le_total a.name b.name⟩

instance : IsTrans InventoryItem itemNameLe :=
  ⟨fun _ _ _ h1 h2 => le_trans h1 h2⟩

/-- ListItems: the snapshot built by `inventory_tab_ui`
(main.rs lines 188-203): lowercase the filter, keep the matching items,
sort the clones by name (Rust's `sort_by` is a stable sort; a stable
insertion sort produces the same list). -/
def listItems (items : List InventoryItem) (filter : String) : List InventoryItem :=
  List.insertionSort itemNameLe (items.filter (fun it => matchesFilter (rustToLower filter) it))

/-- RecentTransactions: `transactions.iter().rev().take(limit)`
(main.rs line 354), with the limit left as a parameter. -/
def recentTransactions (txns : List Transaction) (limit : Nat) : List Transaction :=
  txns.reverse.take limit

/-- The view the source actually renders, with the hard-coded limit 20
(main.rs line 354). -/
def recentShown (txns : List Transaction) : List Transaction :=
  recentTransactions txns 20

/-- One AddItem request: the five text fields of `AddItemForm`
(main.rs lines 38-45) at click time. -/
structure AddRequest where
  name : String
  sku : String
  unit : String
  location : String
  quantity_text : String
deriving DecidableEq, Repr

/-- One RecordMovement request: the selected index, the two text fields of
`MovementForm` (main.rs lines 60-65), the tab's transaction kind and the
date triple selected in the top bar. -/
structure MovementRequest where
  item_index : Nat
  quantity_text : String
  note : String
  kind : TransactionType
  date : Int × Nat × Nat
deriving DecidableEq, Repr

/-- `recordMovement` applied to a bundled request. -/
def applyMovement (s : Ledger) (r : MovementRequest) : Ledger × MovementResult :=
  recordMovement s r.item_index r.quantity_text r.note r.kind r.date

/-- Folds a sequence of movement clicks over the ledger. -/
def runMovements (s : Ledger) : List MovementRequest → Ledger
  | [] => s
  | r :: rs => runMovements (applyMovement s r).1 rs

/-- `addItem` applied to a bundled request. -/
def applyAdd (s : Ledger) (r : AddRequest) : Ledger × Except ValidationError Nat :=
  addItem s r.name r.sku r.unit r.location r.quantity_text

/-- Folds a sequence of Add Item clicks over the ledger, collecting the
returned id (or `none` for a rejected click) of each attempt in order. -/
def runAddItems (s : Ledger) : List AddRequest → Ledger × List (Option Nat)
  | [] => (s, [])
  | r :: rs =>
    ((runAddItems (applyAdd s r).1 rs).1,
      (applyAdd s r).2.toOption :: (runAddItems (applyAdd s r).1 rs).2)

example : parseI32 "-5" = some (-5) := by decide
example : parseI32 "abc" = none := by decide
example : parseI32 "" = none := by decide
example : parseI32 "+7" = some 7 := by decide
example : parseOrZero " 10 " = 10 := by decide
example : strContains "bolt" "olt" = true := by decide
example : strContains "bolt" "x" = false := by decide

/-- A list is unchanged by writing back the element already stored at a
position. -/
theorem set_getElem?_self {α : Type} (l : List α) (i : Nat) (a : α)
    (h : l[i]? = some a) : l.set i a = l := by
  induction l generalizing i with
  | nil => simp at h
  | cons x xs ih =>
    cases i with
    | zero => simp at h; simp [h]
    | succ j => simp at h; simp [List.set, ih j h]

/-- C2: if RecordMovement fails with InsufficientStock, the whole ledger
state — the selected item, every other item, the transaction log and the
id counter — keeps its prior value: the failure is atomic. -/
theorem recordMovement_insufficient_atomic
    (s : Ledger) (idx : Nat) (qt note : String) (kind : TransactionType)
    (d : Int × Nat × Nat)
    (h : (recordMovement s idx qt note kind d).2 = MovementResult.insufficientStock) :
    (recordMovement s idx qt note kind d).1 = s := by
  cases hi : s.items[idx]? with
  | none => simp [recordMovement, hi] at h
  | some item =>
    by_cases hneg : item.quantity_on_hand + signOf kind * parseOrZero qt < 0
    · simp [recordMovement, hi, hneg]
    · simp [recordMovement, hi, hneg] at h

/-- Witness for C2: shipping 1 from an item with 0 on hand fails and the
ledger is returned unchanged. -/
theorem recordMovement_insufficient_atomic_witness :
    (recordMovement ⟨[⟨1, "Widget", "W1", "ea", "S", 0⟩], [], 2⟩ 0 "1" ""
        TransactionType.Shipping (2025, 1, 1)).1 =
      ⟨[⟨1, "Widget", "W1", "ea", "S", 0⟩], [], 2⟩ :=
  recordMovement_insufficient_atomic ⟨[⟨1, "Widget", "W1", "ea", "S", 0⟩], [], 2⟩
    0 "1" "" TransactionType.Shipping (2025, 1, 1) (by decide)

/-- C3: on an existing item, RecordMovement fails with InsufficientStock
exactly when `quantity_on_hand + signOf kind * q < 0`, where `q` is the
parsed quantity; in every other case it reports success. -/
theorem recordMovement_insufficient_iff
    (s : Ledger) (idx : Nat) (qt note : String) (kind : TransactionType)
    (d : Int × Nat × Nat) (h : idx < s.items.length) :
    ((recordMovement s idx qt note kind d).2 = MovementResult.insufficientStock ↔
      (s.items[idx]).quantity_on_hand + signOf kind * parseOrZero qt < 0) ∧
    ((recordMovement s idx qt note kind d).2 = MovementResult.recorded ↔
      0 ≤ (s.items[idx]).quantity_on_hand + signOf kind * parseOrZero qt) := by
  have hi : s.items[idx]? = some (s.items[idx]) := List.getElem?_eq_getElem h
  by_cases hneg : (s.items[idx]).quantity_on_hand + signOf kind * parseOrZero qt < 0
  · constructor
    · simp [recordMovement, hi, hneg]
    · simp only [recordMovement, hi]
      rw [if_pos hneg]
      simpa using not_le.mpr hneg
  · constructor
    · simp only [recordMovement, hi]
      rw [if_neg hneg]
      simpa using hneg
    · simp only [recordMovement, hi]
      rw [if_neg hneg]
      simpa using not_lt.mp hneg

/-- Witness for C3: with 6 on hand, shipping 10 is reported as
insufficient stock, instantiating the characterisation. -/
theorem recordMovement_insufficient_iff_witness :
    (recordMovement ⟨[⟨1, "Widget", "W1", "ea", "S", 6⟩], [], 2⟩ 0 "10" ""
        TransactionType.Shipping (2025, 1, 1)).2 =
      MovementResult.insufficientStock := by
  have h := (recordMovement_insufficient_iff ⟨[⟨1, "Widget", "W1", "ea", "S", 6⟩], [], 2⟩
    0 "10" "" TransactionType.Shipping (2025, 1, 1) (by decide)).1
  exact h.mpr (by decide)

/-- C6: AddItem fails with MissingRequiredField exactly when the trimmed
name or trimmed sku is empty, whatever the other fields hold, and such a
failure leaves the ledger untouched. -/
theorem addItem_missing_required
    (s : Ledger) (name sku unit location qt : String) :
    ((addItem s name sku unit location qt).2 =
        Except.error ValidationError.MissingRequiredField ↔
      ((rustTrim name).isEmpty || (rustTrim sku).isEmpty) = true) ∧
    (((rustTrim name).isEmpty || (rustTrim sku).isEmpty) = true →
      (addItem s name sku unit location qt).1 = s) := by
  by_cases h : ((rustTrim name).isEmpty || (rustTrim sku).isEmpty) = true
  · simp [addItem, h]
  · simp [addItem, h]

/-- Witness for C6: an empty name with sku "X" is rejected and the empty
ledger is unchanged. -/
theorem addItem_missing_required_witness :
    (addItem initialLedger "" "X" "" "" "").2 =
        Except.error ValidationError.MissingRequiredField ∧
    (addItem initialLedger "" "X" "" "" "").1 = initialLedger :=
  ⟨(addItem_missing_required initialLedger "" "X" "" "" "").1.mpr (by decide),
    (addItem_missing_required initialLedger "" "X" "" "" "").2 (by decide)⟩

/-- C10: AddItem performs no non-negativity check: an initial-quantity
text parsing to a negative integer is stored unchanged, so the new item is
created with a negative quantity_on_hand. -/
theorem addItem_stores_negative_quantity :
    (addItem initialLedger "Widget" "W1" "ea" "Shelf1" "-5").2 = Except.ok 1 ∧
    (addItem initialLedger "Widget" "W1" "ea" "Shelf1" "-5").1.items =
      [⟨1, "Widget", "W1", "ea", "Shelf1", -5⟩] ∧
    ((-5 : Int) < 0) := by decide

/-- C4 counterexample: a Receipt whose quantity text parses to -5 on an
item with 10 on hand is accepted, yet the stock decreases (10 to 5, not a
change of +quantity) and the appended transaction stores the negative
parsed value -5 rather than an unsigned positive magnitude. -/
theorem recordMovement_magnitude_counterexample :
    (recordMovement ⟨[⟨1, "Widget", "W1", "ea", "S", 10⟩], [], 2⟩ 0 "-5" ""
        TransactionType.Warehousing (2025, 1, 1)).2 = MovementResult.recorded ∧
    (recordMovement ⟨[⟨1, "Widget", "W1", "ea", "S", 10⟩], [], 2⟩ 0 "-5" ""
        TransactionType.Warehousing (2025, 1, 1)).1.items =
      [⟨1, "Widget", "W1", "ea", "S", 5⟩] ∧
    (recordMovement ⟨[⟨1, "Widget", "W1", "ea", "S", 10⟩], [], 2⟩ 0 "-5" ""
        TransactionType.Warehousing (2025, 1, 1)).1.transactions =
      [⟨(2025, 1, 1), 1, -5, "", TransactionType.Warehousing⟩] ∧
    ((-5 : Int) < 0) := by decide

/-- C4 amended: on every successful RecordMovement the selected item's
quantity_on_hand changes by `signOf kind * q`, where `q` is the parsed
signed quantity value, and exactly one Transaction is appended carrying
the given date, the item's id, the parsed value `q` itself (equal to the
unsigned magnitude only when the entered quantity is non-negative), the
note and the kind; both mutations are committed together and the id
counter is untouched. -/
theorem recordMovement_success_commits
    (s : Ledger) (idx : Nat) (qt note : String) (kind : TransactionType)
    (d : Int × Nat × Nat)
    (h : (recordMovement s idx qt note kind d).2 = MovementResult.recorded) :
    ∃ item, s.items[idx]? = some item ∧
      (recordMovement s idx qt note kind d).1.items =
        s.items.set idx ⟨item.id, item.name, item.sku, item.unit, item.location,
          item.quantity_on_hand + signOf kind * parseOrZero qt⟩ ∧
      (recordMovement s idx qt note kind d).1.transactions =
        s.transactions ++ [⟨d, item.id, parseOrZero qt, note, kind⟩] ∧
      (recordMovement s idx qt note kind d).1.next_item_id = s.next_item_id := by
  cases hi : s.items[idx]? with
  | none => simp [recordMovement, hi] at h
  | some item =>
    by_cases hneg : item.quantity_on_hand + signOf kind * parseOrZero qt < 0
    · simp [recordMovement, hi, hneg] at h
    · refine ⟨item, rfl, ?_, ?_, ?_⟩ <;> simp [recordMovement, hi, hneg]

/-- Witness for the amended C4: receiving 3 onto 5 on hand commits the
updated item and appends exactly the expected transaction. -/
theorem recordMovement_success_commits_witness :
    ∃ item, ([⟨1, "Widget", "W1", "ea", "S", 5⟩] :
        List InventoryItem)[0]? = some item ∧
      (recordMovement ⟨[⟨1, "Widget", "W1", "ea", "S", 5⟩], [], 2⟩ 0 "3" "note"
          TransactionType.Warehousing (2025, 1, 2)).1.items =
        ([⟨1, "Widget", "W1", "ea", "S", 5⟩] : List InventoryItem).set 0
          ⟨item.id, item.name, item.sku, item.unit, item.location,
            item.quantity_on_hand + signOf TransactionType.Warehousing * parseOrZero "3"⟩ ∧
      (recordMovement ⟨[⟨1, "Widget", "W1", "ea", "S", 5⟩], [], 2⟩ 0 "3" "note"
          TransactionType.Warehousing (2025, 1, 2)).1.transactions =
        [] ++ [⟨(2025, 1, 2), item.id, parseOrZero "3", "note",
          TransactionType.Warehousing⟩] ∧
      (recordMovement ⟨[⟨1, "Widget", "W1", "ea", "S", 5⟩], [], 2⟩ 0 "3" "note"
          TransactionType.Warehousing (2025, 1, 2)).1.next_item_id = 2 :=
  recordMovement_success_commits ⟨[⟨1, "Widget", "W1", "ea", "S", 5⟩], [], 2⟩
    0 "3" "note" TransactionType.Warehousing (2025, 1, 2) (by decide)

/-- C7 counterexample: AddItem accepts a negative initial quantity (C10),
after which a movement whose quantity text is the unparsable "abc" — and
hence coerced to zero — is rejected with InsufficientStock instead of
succeeding, and no transaction is appended. -/
theorem lenient_quantity_counterexample :
    (addItem initialLedger "W" "W1" "" "" "-1").2 = Except.ok 1 ∧
    (recordMovement (addItem initialLedger "W" "W1" "" "" "-1").1 0 "abc" ""
        TransactionType.Warehousing (2025, 1, 1)).2 =
      MovementResult.insufficientStock ∧
    (recordMovement (addItem initialLedger "W" "W1" "" "" "-1").1 0 "abc" ""
        TransactionType.Warehousing (2025, 1, 1)).1.transactions = [] := by decide

/-- C7 amended: unparsable quantity text is coerced to zero in both
operations.  AddItem with unparsable quantity text succeeds (given
non-blank name and sku) and stores quantity_on_hand 0.  RecordMovement
with quantity text parsing-or-coercing to zero, on an item whose current
quantity_on_hand is non-negative, succeeds, leaves every item unchanged
and appends a zero-quantity Transaction; on an item with a negative
quantity_on_hand (reachable only via a negative initial quantity) even
the zero movement is rejected as InsufficientStock. -/
theorem lenient_quantity_amended :
    (∀ (s : Ledger) (name sku unit location qt : String),
        (rustTrim name).isEmpty = false → (rustTrim sku).isEmpty = false →
        parseI32 (rustTrim qt) = none →
        (addItem s name sku unit location qt).2 = Except.ok s.next_item_id ∧
        (addItem s name sku unit location qt).1.items =
          s.items ++ [⟨s.next_item_id, rustTrim name, rustTrim sku, rustTrim unit,
            rustTrim location, 0⟩]) ∧
    (∀ (s : Ledger) (idx : Nat) (qt note : String) (kind : TransactionType)
        (d : Int × Nat × Nat) (item : InventoryItem),
        s.items[idx]? = some item → 0 ≤ item.quantity_on_hand →
        parseOrZero qt = 0 →
        (recordMovement s idx qt note kind d).2 = MovementResult.recorded ∧
        (recordMovement s idx qt note kind d).1.items = s.items ∧
        (recordMovement s idx qt note kind d).1.transactions =
          s.transactions ++ [⟨d, item.id, 0, note, kind⟩]) := by
  constructor
  · intro s name sku unit location qt hn hs hq
    have hz : parseOrZero qt = 0 := by simp [parseOrZero, hq]
    simp [addItem, hn, hs, hz]
  · intro s idx qt note kind d item hi hnn hz
    have hneg : ¬ item.quantity_on_hand + signOf kind * parseOrZero qt < 0 := by
      rw [hz]; simpa using hnn
    have hitem : (⟨item.id, item.name, item.sku, item.unit, item.location,
        item.quantity_on_hand + signOf kind * parseOrZero qt⟩ : InventoryItem) = item := by
      rw [hz]; simp
    refine ⟨?_, ?_, ?_⟩
    · simp [recordMovement, hi, hneg]
    · simp [recordMovement, hi, hneg, hitem, set_getElem?_self s.items idx item hi]
    · have hneg2 : ¬ item.quantity_on_hand < 0 := not_lt.mpr hnn
      simp [recordMovement, hi, hz, hneg2]

/-- Witness for the amended C7: adding an item with quantity text "abc"
stores 0 on hand, and a movement with text "abc" on an item with 4 on
hand records a zero-quantity transaction and changes nothing. -/
theorem lenient_quantity_amended_witness :
    ((addItem initialLedger "Bolt" "B1" "ea" "A1" "abc").2 = Except.ok 1 ∧
      (addItem initialLedger "Bolt" "B1" "ea" "A1" "abc").1.items =
        [] ++ [⟨1, rustTrim "Bolt", rustTrim "B1", rustTrim "ea", rustTrim "A1", 0⟩]) ∧
    ((recordMovement ⟨[⟨1, "Bolt", "B1", "ea", "A1", 4⟩], [], 2⟩ 0 "abc" ""
          TransactionType.Shipping (2025, 1, 1)).2 = MovementResult.recorded ∧
      (recordMovement ⟨[⟨1, "Bolt", "B1", "ea", "A1", 4⟩], [], 2⟩ 0 "abc" ""
          TransactionType.Shipping (2025, 1, 1)).1.items =
        [⟨1, "Bolt", "B1", "ea", "A1", 4⟩] ∧
      (recordMovement ⟨[⟨1, "Bolt", "B1", "ea", "A1", 4⟩], [], 2⟩ 0 "abc" ""
          TransactionType.Shipping (2025, 1, 1)).1.transactions =
        [] ++ [⟨(2025, 1, 1), 1, 0, "", TransactionType.Shipping⟩]) :=
  ⟨lenient_quantity_amended.1 initialLedger "Bolt" "B1" "ea" "A1" "abc"
      (by decide) (by decide) (by decide),
    lenient_quantity_amended.2 ⟨[⟨1, "Bolt", "B1", "ea", "A1", 4⟩], [], 2⟩ 0 "abc" ""
      TransactionType.Shipping (2025, 1, 1) ⟨1, "Bolt", "B1", "ea", "A1", 4⟩
      (by decide) (by decide) (by decide)⟩

/-- C9: the recent-transactions view is the strict reverse of the
append-only log truncated to `limit` entries: its length is
`min limit length`, it is the whole reversed log when fewer than `limit`
exist, its i-th entry is the (length-1-i)-th inserted transaction, the
three-movement example returns the last two in reverse order, and the
source renders it with the hard-coded limit 20. -/
theorem recentTransactions_reverse_order :
    (∀ (t : List Transaction) (limit : Nat),
        (recentTransactions t limit).length = min limit t.length) ∧
    (∀ (t : List Transaction) (limit : Nat), t.length ≤ limit →
        recentTransactions t limit = t.reverse) ∧
    (∀ (t : List Transaction) (limit i : Nat), i < limit → i < t.length →
        (recentTransactions t limit)[i]? = t[t.length - 1 - i]?) ∧
    (∀ m1 m2 m3 : Transaction, recentTransactions [m1, m2, m3] 2 = [m3, m2]) ∧
    (∀ t : List Transaction, recentShown t = recentTransactions t 20) := by
  refine ⟨?_, ?_, ?_, ?_, ?_⟩
  · intro t limit
    simp [recentTransactions]
  · intro t limit h
    rw [recentTransactions]
    exact List.take_of_length_le (by simpa using h)
  · intro t limit i h1 h2
    rw [recentTransactions, List.getElem?_take, if_pos h1,
      List.getElem?_reverse (by simpa using h2)]
  · intro m1 m2 m3
    rfl
  · intro t
    rfl

/-- Witness for C9: a two-entry log viewed with limit 20 is returned
whole, most recent first. -/
theorem recentTransactions_reverse_order_witness :
    recentTransactions [⟨(2025, 1, 1), 1, 1, "a", TransactionType.Warehousing⟩,
        ⟨(2025, 1, 2), 1, 2, "b", TransactionType.Shipping⟩] 20 =
      [⟨(2025, 1, 2), 1, 2, "b", TransactionType.Shipping⟩,
        ⟨(2025, 1, 1), 1, 1, "a", TransactionType.Warehousing⟩] :=
  recentTransactions_reverse_order.2.1
    [⟨(2025, 1, 1), 1, 1, "a", TransactionType.Warehousing⟩,
      ⟨(2025, 1, 2), 1, 2, "b", TransactionType.Shipping⟩] 20 (by decide)

/-- One movement click cannot introduce a negative quantity: if every
item was non-negative before the click, every item is non-negative after
it (whether the click succeeded, failed, or found no item). -/
theorem recordMovement_step_nonneg (s : Ledger) (r : MovementRequest)
    (h : ∀ it ∈ s.items, 0 ≤ it.quantity_on_hand) :
    ∀ it ∈ (applyMovement s r).1.items, 0 ≤ it.quantity_on_hand := by
  cases hi : s.items[r.item_index]? with
  | none => simpa [applyMovement, recordMovement, hi] using h
  | some item =>
    by_cases hneg :
        item.quantity_on_hand + signOf r.kind * parseOrZero r.quantity_text < 0
    · simpa [applyMovement, recordMovement, hi, hneg] using h
    · intro it hit
      simp only [applyMovement, recordMovement, hi] at hit
      rw [if_neg hneg] at hit
      rcases List.mem_or_eq_of_mem_set hit with hmem | heq
      · exact h it hmem
      · subst heq
        simpa using not_lt.mp hneg

/-- Movement sequences preserve the all-items non-negativity invariant. -/
theorem runMovements_nonneg (reqs : List MovementRequest) : ∀ (s : Ledger),
    (∀ it ∈ s.items, 0 ≤ it.quantity_on_hand) →
    ∀ it ∈ (runMovements s reqs).items, 0 ≤ it.quantity_on_hand := by
  induction reqs with
  | nil =>
    intro s h
    simpa [runMovements] using h
  | cons r rs ih =>
    intro s h
    exact ih (applyMovement s r).1 (recordMovement_step_nonneg s r h)

/-- A successful movement leaves its affected item non-negative. -/
theorem recordMovement_affected_nonneg (s : Ledger) (r : MovementRequest)
    (it : InventoryItem)
    (hrec : (applyMovement s r).2 = MovementResult.recorded)
    (hget : ((applyMovement s r).1.items)[r.item_index]? = some it) :
    0 ≤ it.quantity_on_hand := by
  cases hi : s.items[r.item_index]? with
  | none => simp [applyMovement, recordMovement, hi] at hrec
  | some item =>
    by_cases hneg :
        item.quantity_on_hand + signOf r.kind * parseOrZero r.quantity_text < 0
    · simp [applyMovement, recordMovement, hi, hneg] at hrec
    · rcases List.getElem?_eq_some.mp hi with ⟨hlen, _⟩
      simp only [applyMovement, recordMovement, hi] at hget
      rw [if_neg hneg] at hget
      rw [List.getElem?_set_self (by simpa using hlen)] at hget
      cases hget
      simpa using not_lt.mp hneg

/-- C1: non-negative stock invariant.  A successful RecordMovement leaves
the affected item's quantity_on_hand non-negative, and any sequence of
RecordMovement calls keeps every item non-negative whenever every item
started non-negative. -/
theorem nonneg_stock_invariant :
    (∀ (s : Ledger) (r : MovementRequest) (it : InventoryItem),
        (applyMovement s r).2 = MovementResult.recorded →
        ((applyMovement s r).1.items)[r.item_index]? = some it →
        0 ≤ it.quantity_on_hand) ∧
    (∀ (s : Ledger) (reqs : List MovementRequest),
        (∀ it ∈ s.items, 0 ≤ it.quantity_on_hand) →
        ∀ it ∈ (runMovements s reqs).items, 0 ≤ it.quantity_on_hand) :=
  ⟨recordMovement_affected_nonneg, fun s reqs h => runMovements_nonneg reqs s h⟩

/-- Witness for C1: receiving 3 onto 5 on hand succeeds and the affected
item ends with 8 on hand, which is non-negative. -/
theorem nonneg_stock_invariant_witness :
    0 ≤ (InventoryItem.mk 1 "A" "B" "" "" 8).quantity_on_hand :=
  nonneg_stock_invariant.1 ⟨[⟨1, "A", "B", "", "", 5⟩], [], 2⟩
    ⟨0, "3", "", TransactionType.Warehousing, (2025, 1, 1)⟩
    ⟨1, "A", "B", "", "", 8⟩ (by decide) (by decide)

/-- The ids collected by a run of Add Item clicks from any start state are
exactly the consecutive block starting at the state's counter: a rejected
click contributes nothing and leaves the counter alone, a successful click
returns the counter and bumps it. -/
theorem runAddItems_ids_from (reqs : List AddRequest) : ∀ (s : Ledger),
    (runAddItems s reqs).2.reduceOption =
      List.range' s.next_item_id ((runAddItems s reqs).2.reduceOption).length := by
  induction reqs with
  | nil =>
    intro s
    simp [runAddItems]
  | cons r rs ih =>
    intro s
    by_cases h : ((rustTrim r.name).isEmpty || (rustTrim r.sku).isEmpty) = true
    · have e2 : (applyAdd s r).2 = Except.error ValidationError.MissingRequiredField := by
        simp [applyAdd, addItem, h]
      have e1 : (applyAdd s r).1 = s := by
        simp [applyAdd, addItem, h]
      rw [runAddItems, e1, e2]
      simpa using ih s
    · have e2 : (applyAdd s r).2 = Except.ok s.next_item_id := by
        simp [applyAdd, addItem, h]
      have e1 : (applyAdd s r).1.next_item_id = s.next_item_id + 1 := by
        simp [applyAdd, addItem, h]
      rw [runAddItems, e2]
      simp only [Except.toOption, List.reduceOption_cons_of_some, List.length_cons]
      rw [List.range'_succ]
      have := ih (applyAdd s r).1
      rw [e1] at this
      exact congrArg (s.next_item_id :: ·) this

/-- C5: starting from the initial state, the ids handed out by a sequence
of Add Item clicks are exactly 1, 2, 3, … in order — strictly increasing
by one, never repeated — and interleaved rejected clicks do not consume an
id. -/
theorem addItem_ids_monotonic (reqs : List AddRequest) :
    (runAddItems initialLedger reqs).2.reduceOption =
      List.range' 1 ((runAddItems initialLedger reqs).2.reduceOption).length :=
  runAddItems_ids_from reqs initialLedger

/-- C8: the inventory view returns exactly the items matching the
case-insensitive filter (all of them for the empty filter) — membership,
and equality as a multiset — sorted by name ascending. -/
theorem listItems_filter_sorted (items : List InventoryItem) (filter : String) :
    (∀ x : InventoryItem, x ∈ listItems items filter ↔
        x ∈ items ∧ matchesFilter (rustToLower filter) x = true) ∧
    List.Sorted itemNameLe (listItems items filter) ∧
    (listItems items filter).Perm
      (items.filter (fun it => matchesFilter (rustToLower filter) it)) := by
  refine ⟨?_, ?_, ?_⟩
  · intro x
    rw [listItems, (List.perm_insertionSort itemNameLe _).mem_iff, List.mem_filter]
  · exact List.sorted_insertionSort itemNameLe _
  · exact List.perm_insertionSort itemNameLe _

end InventoryApp
